import Mathlib

/-!
Shallow embedding of the session lifecycle and message-routing layer of the
realtime voice-assistant backend: the WebSocket endpoint and its handlers
(`livekit_routes.py`), the per-session AI connector (`gemini_live.py`), and
the HMAC-SHA256 access-token helper.  Python dicts are association lists,
wall-clock sampling (`time.time()` / `datetime.now()`) is an explicit natural
number clock threaded through every operation and incremented at each sample,
and the generative AI call is an oracle value describing what the upstream
call does (raise, or return a response with a given text).
-/

set_option linter.unusedVariables false
set_option maxRecDepth 200000

namespace Cloudy

/-! ### Python dicts as association lists -/

def alookup {α : Type} : List (String × α) → String → Option α
  | [], _ => none
  | (k, v) :: rest, key => if k = key then some v else alookup rest key

def aset {α : Type} : List (String × α) → String → α → List (String × α)
  | [], key, v => [(key, v)]
  | (k, w) :: rest, key, v =>
      if k = key then (key, v) :: rest else (k, w) :: aset rest key v

def aerase {α : Type} : List (String × α) → String → List (String × α)
  | [], _ => []
  | (k, w) :: rest, key =>
      if k = key then aerase rest key else (k, w) :: aerase rest key

/-! ### Data model of `gemini_live.py` -/

/-- Result of one `_generate_content` call, i.e. what the upstream generative
AI does for this request: raise an exception, or return a response whose text
is the given string.  A response that is `None` or has empty text both fail the
Python truthiness test `if response and response.text`, so both are `ok ""`. -/
inductive AIBehavior where
  | raises
  | ok (text : String)
deriving DecidableEq, Repr

/-- One entry of `self.session["history"]`.  Entries of kind `user_audio` and
`screen_share` carry no content field, modelled as `none`. -/
structure HistoryEntry where
  kind : String
  content : Option String
  timestamp : Nat
  session_id : String
deriving DecidableEq, Repr

/-- The `self.session` dict of a `GeminiLiveConnector`. -/
structure ConnSession where
  id : String
  user_id : String
  history : List HistoryEntry
  config : List (String × String)
  start_time : Nat
  status : String
  end_time : Option Nat
deriving DecidableEq, Repr

/-- Mutable state of one `GeminiLiveConnector` instance. -/
structure Connector where
  session : Option ConnSession
  is_connected : Bool
deriving DecidableEq, Repr

/-- A freshly constructed `GeminiLiveConnector()` after `initialize()`
(no session yet, not connected; model construction is assumed to succeed). -/
def initConnector : Connector := { session := none, is_connected := false }

/-- Return value of `GeminiLiveConnector.start_session` on the success path
(the `result` dict; `_safe_json_serialize` always succeeds on this dict of
plain strings, so the serialization fallback branch is unreachable). -/
structure StartResult where
  status : String
  session_id : String
  message : String
  greeting : String
deriving DecidableEq, Repr

/-- The fixed fallback greeting of `GeminiLiveConnector.start_session`. -/
def defaultGreeting : String :=
  "Hello! I\x27m Cloudy, your AWS assistant. How can I help you today?"

/-- `GeminiLiveConnector.start_session`: install the session dict, mark the
connector connected, then issue the greeting request to the AI.  If the AI
call raises, the exception propagates out (the method re-raises); if it
returns text, the greeting is recorded in history; with no text the result
falls back to `defaultGreeting`. -/
def connector_start_session (b : AIBehavior) (sid uid : String)
    (cfg : List (String × String)) (c : Connector) (clk : Nat) :
    Except String StartResult × Connector × Nat :=
  let s0 : ConnSession :=
    { id := sid, user_id := uid, history := [], config := cfg,
      start_time := clk, status := "active", end_time := none }
  let c1 : Connector := { session := some s0, is_connected := true }
  match b with
  | .raises => (.error "greeting generation failed", c1, clk + 1)
  | .ok g =>
      if g = "" then
        (.ok { status := "success", session_id := sid,
               message := "Session started successfully",
               greeting := defaultGreeting }, c1, clk + 1)
      else
        let s1 := { s0 with history :=
          [{ kind := "assistant_greeting", content := some g,
             timestamp := clk + 1, session_id := sid }] }
        (.ok { status := "success", session_id := sid,
               message := "Session started successfully",
               greeting := g }, { c1 with session := some s1 }, clk + 2)

/-- One event yielded by the connector generators (`yield { "type": ... }`).
Event timestamps are clock samples and are not inspected by any handler, so
they are omitted here; the clock is still advanced. -/
inductive AIEvent where
  | text_response (content : String)
  | audio_response (content : String)
  | error (message : String)
deriving DecidableEq, Repr

/-- `GeminiLiveConnector.process_audio_input`: the full (finite) list of
events the async generator yields, plus the connector state and clock after
it is drained.  Its own `try` catches every exception (missing session, a
raising AI call) and turns it into a single yielded `error` event.  The
base64 payload is assumed decodable (decode failure would be one more source
of the same `error` event). -/
def process_audio_input (b : AIBehavior) (audio_data sid : String)
    (c : Connector) (clk : Nat) : List AIEvent × Connector × Nat :=
  if c.is_connected = false ∨ c.session = none then
    ([.error "No active session"], c, clk + 1)
  else
    match b with
    | .raises => ([.error "generate content failed"], c, clk + 1)
    | .ok t =>
        if t = "" then ([], c, clk)
        else
          let c2 :=
            match c.session with
            | none => c
            | some s =>
                { c with session := some { s with history := s.history ++
                    [{ kind := "user_audio", content := none,
                       timestamp := clk, session_id := sid },
                     { kind := "assistant_text", content := some t,
                       timestamp := clk + 1, session_id := sid }] } }
          ([.text_response t, .audio_response ""], c2, clk + 4)

/-- `GeminiLiveConnector.process_screen_share`: like audio processing but it
appends a `screen_share` record and yields only a text event (no audio
placeholder event). -/
def process_screen_share (b : AIBehavior) (image_data sid : String)
    (c : Connector) (clk : Nat) : List AIEvent × Connector × Nat :=
  if c.is_connected = false ∨ c.session = none then
    ([.error "No active session"], c, clk + 1)
  else
    match b with
    | .raises => ([.error "generate content failed"], c, clk + 1)
    | .ok t =>
        if t = "" then ([], c, clk)
        else
          let c2 :=
            match c.session with
            | none => c
            | some s =>
                { c with session := some { s with history := s.history ++
                    [{ kind := "screen_share", content := none,
                       timestamp := clk, session_id := sid },
                     { kind := "assistant_text", content := some t,
                       timestamp := clk + 1, session_id := sid }] } }
          ([.text_response t], c2, clk + 3)

/-- `GeminiLiveConnector.end_session`: succeeds only when the stored session
matches the identifier; marks it ended, records the end time, disconnects,
and returns the duration `end_time - start_time`.  Otherwise raises. -/
def connector_end_session (sid : String) (c : Connector) (clk : Nat) :
    Except String (Int × Connector) × Nat :=
  match c.session with
  | some s =>
      if s.id = sid then
        let s2 := { s with status := "ended", end_time := some clk }
        (.ok ((clk : Int) - (s.start_time : Int),
              { c with session := some s2, is_connected := false }), clk + 1)
      else (.error "Session not found or already ended", clk)
  | none => (.error "Session not found or already ended", clk)

/-- `GeminiLiveConnector.is_session_active`. -/
def is_session_active (c : Connector) (sid : String) : Bool :=
  match c.session with
  | some s => c.is_connected && s.id == sid && s.status == "active"
  | none => false

/-! ### SHA-256 and HMAC

`create_access_token` signs with `hmac.new(secret, data, hashlib.sha256)`;
both primitives are embedded here executably.  Bytes and 32-bit words are
naturals, with `% 2^32` wherever 32-bit overflow matters. -/

def M32 : Nat := 4294967296

def add32 (a b : Nat) : Nat := (a + b) % M32

def rotr32 (x n : Nat) : Nat := ((x >>> n) ||| (x <<< (32 - n))) % M32

def xor3 (a b c : Nat) : Nat := Nat.xor (Nat.xor a b) c

def ssig0 (x : Nat) : Nat := xor3 (rotr32 x 7) (rotr32 x 18) (x >>> 3)

def ssig1 (x : Nat) : Nat := xor3 (rotr32 x 17) (rotr32 x 19) (x >>> 10)

def bsig0 (x : Nat) : Nat := xor3 (rotr32 x 2) (rotr32 x 13) (rotr32 x 22)

def bsig1 (x : Nat) : Nat := xor3 (rotr32 x 6) (rotr32 x 11) (rotr32 x 25)

def ch32 (x y z : Nat) : Nat :=
  Nat.xor (Nat.land x y) (Nat.land (Nat.xor x 4294967295) z)

def maj32 (x y z : Nat) : Nat :=
  xor3 (Nat.land x y) (Nat.land x z) (Nat.land y z)

/-- The 64 SHA-256 round constants, in decimal. -/
def K256 : List Nat :=
  [1116352408, 1899447441, 3049323471, 3921009573, 961987163,
   1508970993, 2453635748, 2870763221, 3624381080, 310598401,
   607225278, 1426881987, 1925078388, 2162078206, 2614888103,
   3248222580, 3835390401, 4022224774, 264347078, 604807628,
   770255983, 1249150122, 1555081692, 1996064986, 2554220882,
   2821834349, 2952996808, 3210313671, 3336571891, 3584528711,
   113926993, 338241895, 666307205, 773529912, 1294757372,
   1396182291, 1695183700, 1986661051, 2177026350, 2456956037,
   2730485921, 2820302411, 3259730800, 3345764771, 3516065817,
   3600352804, 4094571909, 275423344, 430227734, 506948616,
   659060556, 883997877, 958139571, 1322822218, 1537002063,
   1747873779, 1955562222, 2024104815, 2227730452, 2361852424,
   2428436474, 2756734187, 3204031479, 3329325298]

/-- The SHA-256 initial hash value, in decimal. -/
def H256 : List Nat :=
  [1779033703, 3144134277, 1013904242, 2773480762,
   1359893119, 2600822924, 528734635, 1541459225]

/-- SHA-256 padding: append `0x80`, zeros, and the 64-bit big-endian bit
length, reaching a multiple of 64 bytes. -/
def sha256pad (ms : List Nat) : List Nat :=
  let L := ms.length
  let padLen := (64 - (L + 9) % 64) % 64
  let lb := L * 8
  ms ++ 128 :: List.replicate padLen 0 ++
    [lb / 72057594037927936 % 256, lb / 281474976710656 % 256,
     lb / 1099511627776 % 256, lb / 4294967296 % 256,
     lb / 16777216 % 256, lb / 65536 % 256, lb / 256 % 256, lb % 256]

/-- Big-endian 4-byte groups to 32-bit words (input length a multiple of 4). -/
def bytesToWords : List Nat → List Nat
  | a :: b :: c :: d :: rest =>
      (((a * 256 + b) * 256 + c) * 256 + d) :: bytesToWords rest
  | _ => []

/-- Split a word list into 16-word blocks (padding makes the length a
multiple of 16, so the catch-all for a ragged tail is never hit). -/
def wordChunks : List Nat → List (List Nat)
  | w1 :: w2 :: w3 :: w4 :: w5 :: w6 :: w7 :: w8 ::
    w9 :: w10 :: w11 :: w12 :: w13 :: w14 :: w15 :: w16 :: rest =>
      [w1, w2, w3, w4, w5, w6, w7, w8,
       w9, w10, w11, w12, w13, w14, w15, w16] :: wordChunks rest
  | _ => []

/-- Extend a 16-word block to the 64-word message schedule. -/
def extendSchedule (ws : List Nat) : List Nat :=
  (List.range 48).foldl
    (fun acc _ =>
      let n := acc.length
      acc ++ [add32 (add32 (ssig1 (acc.getD (n - 2) 0)) (acc.getD (n - 7) 0))
                    (add32 (ssig0 (acc.getD (n - 15) 0)) (acc.getD (n - 16) 0))])
    ws

/-- The eight 32-bit working variables of the compression loop. -/
structure Hash8 where
  a : Nat
  b : Nat
  c : Nat
  d : Nat
  e : Nat
  f : Nat
  g : Nat
  h : Nat
deriving DecidableEq, Repr

/-- One SHA-256 round; `kw` is the pair of round constant and schedule word. -/
def sha256Round (st : Hash8) (kw : Nat × Nat) : Hash8 :=
  let t1 := add32 (add32 (add32 st.h (bsig1 st.e))
                         (add32 (ch32 st.e st.f st.g) kw.1)) kw.2
  let t2 := add32 (bsig0 st.a) (maj32 st.a st.b st.c)
  { a := add32 t1 t2, b := st.a, c := st.b, d := st.c,
    e := add32 st.d t1, f := st.e, g := st.f, h := st.g }

/-- Compress one 16-word block into the running 8-word hash state. -/
def sha256Compress (hs : List Nat) (block : List Nat) : List Nat :=
  let w := extendSchedule block
  let init : Hash8 :=
    ⟨hs.getD 0 0, hs.getD 1 0, hs.getD 2 0, hs.getD 3 0,
     hs.getD 4 0, hs.getD 5 0, hs.getD 6 0, hs.getD 7 0⟩
  let fin := (K256.zip w).foldl sha256Round init
  [add32 init.a fin.a, add32 init.b fin.b, add32 init.c fin.c,
   add32 init.d fin.d, add32 init.e fin.e, add32 init.f fin.f,
   add32 init.g fin.g, add32 init.h fin.h]

/-- A 32-bit word as four big-endian bytes. -/
def wordToBytes (w : Nat) : List Nat :=
  [w / 16777216 % 256, w / 65536 % 256, w / 256 % 256, w % 256]

/-- SHA-256 of a byte list, as a 32-byte list. -/
def sha256 (msg : List Nat) : List Nat :=
  let blocks := wordChunks (bytesToWords (sha256pad msg))
  ((blocks.foldl sha256Compress H256).map wordToBytes).flatten

/-- One lowercase hex digit. -/
def hexDigit (n : Nat) : Char :=
  if n < 10 then Char.ofNat (48 + n) else Char.ofNat (87 + n)

/-- A byte as two lowercase hex characters. -/
def byteToHex (b : Nat) : List Char := [hexDigit (b / 16), hexDigit (b % 16)]

/-- `hexdigest()` of a byte list. -/
def bytesToHex (bs : List Nat) : String := String.mk ((bs.map byteToHex).flatten)

/-- `hmac.new(key, msg, hashlib.sha256).digest()` (block size 64). -/
def hmacSha256 (key msg : List Nat) : List Nat :=
  let k0 := if 64 < key.length then sha256 key else key
  let kp := k0 ++ List.replicate (64 - k0.length) 0
  sha256 ((kp.map (Nat.xor 92)) ++ sha256 ((kp.map (Nat.xor 54)) ++ msg))

/-- UTF-8 encoding of one code point, as `str.encode("utf-8")` does. -/
def utf8Char (c : Nat) : List Nat :=
  if c < 128 then [c]
  else if c < 2048 then [192 + c / 64, 128 + c % 64]
  else if c < 65536 then [224 + c / 4096, 128 + c / 64 % 64, 128 + c % 64]
  else [240 + c / 262144, 128 + c / 4096 % 64, 128 + c / 64 % 64, 128 + c % 64]

/-- UTF-8 bytes of a string. -/
def strBytes (s : String) : List Nat :=
  (s.data.map (fun ch => utf8Char ch.toNat)).flatten

/-! ### Token issuance (`LiveKitConnectionManager.create_access_token`) -/

/-- The configuration values the routing layer reads from `settings`
(`livekit_room_prefix` appears here as `livekit_room_pfx`). -/
structure Settings where
  livekit_api_key : String
  livekit_api_secret : String
  livekit_room_pfx : String
  livekit_url : String
deriving DecidableEq, Repr

/-- The embedded expiry: issuance time plus 3600 seconds (one hour). -/
def tokenExpiry (now : Nat) : Nat := now + 3600

/-- The canonical string the token signature is computed over:
`key:identity:room:expiry`. -/
def tokenData (cfg : Settings)
    (room_name participant_identity : String) (now : Nat) : String :=
  cfg.livekit_api_key ++ ":" ++ participant_identity ++ ":"
    ++ room_name ++ ":" ++ toString (tokenExpiry now)

/-- The hex HMAC-SHA256 signature of the canonical string, keyed with the
symmetric API secret. -/
def tokenSignature (cfg : Settings)
    (room_name participant_identity : String) (now : Nat) : String :=
  bytesToHex (hmacSha256 (strBytes cfg.livekit_api_secret)
                         (strBytes (tokenData cfg room_name participant_identity now)))

/-- `create_access_token`: the canonical data string, a colon, and its
signature. -/
def create_access_token (cfg : Settings)
    (room_name participant_identity : String) (now : Nat) : String :=
  tokenData cfg room_name participant_identity now ++ ":"
    ++ tokenSignature cfg room_name participant_identity now

/-- Modelled from the spec: the repository only issues tokens and has no
checking routine, but the spec requires that an issued token "validate
against the same key/secret given the embedded expiry".  Validation splits
the token at its final colon and recomputes the HMAC-SHA256 signature of the
canonical data with the same secret. -/
def validate_token (secret : String) (token : String) : Bool :=
  let rev := token.data.reverse
  match rev.dropWhile (fun ch => ch != ':') with
  | ':' :: dataRev =>
      bytesToHex (hmacSha256 (strBytes secret)
                             (strBytes (String.mk dataRev.reverse)))
        == String.mk (rev.takeWhile (fun ch => ch != ':')).reverse
  | _ => false

/-! ### Outbound protocol messages (`livekit_routes.py`) -/

/-- One outbound WebSocket message, as serialized by `websocket.send_text`.
Error messages carry only their code and human-readable text (the raw error
dicts in the handlers have no `session_id` field). -/
inductive OutMsg where
  | sessionStarted (session_id room_name access_token url : String)
  | textResponse (session_id text : String)
  | audioOutput (session_id payload fmt : String) (sample_rate channels : Nat)
  | sessionEnded (session_id : String) (duration : Int)
  | error (code message : String)
deriving DecidableEq, Repr

/-- The `SESSION_NOT_FOUND` error message the three session handlers send. -/
def sessionNotFoundMsg (sid : String) : OutMsg :=
  .error "SESSION_NOT_FOUND" ("Session " ++ sid ++ " not found")

/-! ### The connection manager state -/

/-- One value of `manager.room_sessions`: the per-session room record stored
by `handle_start_session` and served by the REST session-info query. -/
structure RoomSession where
  room_name : String
  user_id : String
  access_token : String
  start_time : Nat
  status : String
deriving DecidableEq, Repr

/-- The mutable dictionaries of the global `LiveKitConnectionManager`
(`active_connections` holds raw WebSocket handles and is not modelled; it is
never read by the handlers under verification). -/
structure Manager where
  session_connectors : List (String × Connector)
  room_sessions : List (String × RoomSession)
deriving DecidableEq, Repr

/-! ### WebSocket handlers -/

/-- What the `async for` loop of a handler observes of one AI response stream: the
events produced in order, then either exhaustion (`raises = false`) or an
exception thrown out of the consumption (`raises = true`). -/
structure AIStream where
  events : List AIEvent
  raises : Bool
deriving DecidableEq, Repr

/-- The stream `connector.process_audio_input(data, sid)` hands to the
handler; the generator catches its own exceptions, so it never raises. -/
def geminiAudioProc (b : AIBehavior) (audio_data sid : String)
    (c : Connector) (clk : Nat) : AIStream × Connector × Nat :=
  let r := process_audio_input b audio_data sid c clk
  ({ events := r.1, raises := false }, r.2.1, r.2.2)

/-- The stream `connector.process_screen_share(data, sid)` hands to the
handler. -/
def geminiScreenProc (b : AIBehavior) (image_data sid : String)
    (c : Connector) (clk : Nat) : AIStream × Connector × Nat :=
  let r := process_screen_share b image_data sid c clk
  ({ events := r.1, raises := false }, r.2.1, r.2.2)

/-- `handle_start_session` on a message that passed validation, with the
session identifier already resolved (the given one, or a fresh UUID).  Order
as in the source: build the room name, sign the access token, construct and
start a fresh connector; only if `start_session` returns are the connector
and the room record stored and `session_started` sent.  If it raises, the
handler sends one `SESSION_START_ERROR` and stores nothing. -/
def handle_start_session (cfg : Settings) (b : AIBehavior) (sid uid : String)
    (config : List (String × String)) (mgr : Manager) (clk : Nat) :
    List OutMsg × Manager × Nat :=
  let room_name := cfg.livekit_room_pfx ++ "-" ++ sid
  let access_token := create_access_token cfg room_name uid clk
  match connector_start_session b sid uid config initConnector (clk + 1) with
  | (.error _, _, clk2) =>
      ([.error "SESSION_START_ERROR" "Failed to start session"], mgr, clk2)
  | (.ok _, conn1, clk2) =>
      let mgr2 : Manager :=
        { session_connectors := aset mgr.session_connectors sid conn1,
          room_sessions := aset mgr.room_sessions sid
            { room_name := room_name, user_id := uid,
              access_token := access_token, start_time := clk2,
              status := "active" } }
      ([.sessionStarted sid room_name access_token cfg.livekit_url],
       mgr2, clk2 + 1)

/-- How `handle_audio_input` renders one stream event into an outbound
message (the three `if response["type"] == ...` branches). -/
def renderAudioEvent (sid : String) : AIEvent → OutMsg
  | .text_response t => .textResponse sid t
  | .audio_response _ => .audioOutput sid "" "wav" 16000 1
  | .error _ =>
      .error "AUDIO_PROCESSING_ERROR" "Audio processing failed, please try again"

/-- The message sent by the `except` wrapped around audio stream consumption. -/
def criticalAudioMsg : OutMsg :=
  .error "CRITICAL_AUDIO_ERROR" "Audio processing unavailable, please restart session"

/-- `handle_audio_input` after message validation, over an arbitrary response
stream `proc` (for the real connector, `geminiAudioProc`).  A missing session
yields one `SESSION_NOT_FOUND` and touches nothing; otherwise the stream is
drained, each event is rendered, and a stream that raises mid-consumption
adds exactly one `CRITICAL_AUDIO_ERROR` while the session stays registered. -/
def handle_audio_input (proc : Connector → Nat → AIStream × Connector × Nat)
    (sid : String) (mgr : Manager) (clk : Nat) : List OutMsg × Manager × Nat :=
  match alookup mgr.session_connectors sid with
  | none => ([sessionNotFoundMsg sid], mgr, clk)
  | some conn =>
      let r := proc conn clk
      let msgs := r.1.events.map (renderAudioEvent sid)
      let msgs := if r.1.raises then msgs ++ [criticalAudioMsg] else msgs
      (msgs,
       { mgr with session_connectors := aset mgr.session_connectors sid r.2.1 },
       r.2.2)

/-- How `handle_screen_share_frame` renders one stream event; it has no
branch for audio events, which are silently skipped. -/
def renderScreenEvent (sid : String) : AIEvent → Option OutMsg
  | .text_response t => some (.textResponse sid t)
  | .audio_response _ => none
  | .error _ =>
      some (.error "SCREEN_SHARE_ERROR" "Screen analysis failed, please try again")

/-- The message sent by the `except` wrapped around screen stream consumption. -/
def criticalScreenMsg : OutMsg :=
  .error "CRITICAL_SCREEN_ERROR" "Screen analysis unavailable, please restart session"

/-- `handle_screen_share_frame` after message validation, over an arbitrary
response stream `proc` (for the real connector, `geminiScreenProc`). -/
def handle_screen_share_frame
    (proc : Connector → Nat → AIStream × Connector × Nat)
    (sid : String) (mgr : Manager) (clk : Nat) : List OutMsg × Manager × Nat :=
  match alookup mgr.session_connectors sid with
  | none => ([sessionNotFoundMsg sid], mgr, clk)
  | some conn =>
      let r := proc conn clk
      let msgs := r.1.events.filterMap (renderScreenEvent sid)
      let msgs := if r.1.raises then msgs ++ [criticalScreenMsg] else msgs
      (msgs,
       { mgr with session_connectors := aset mgr.session_connectors sid r.2.1 },
       r.2.2)

/-- `handle_end_session` after message validation: missing connector yields
`SESSION_NOT_FOUND`; a raising `connector.end_session` yields
`SESSION_END_ERROR` with no cleanup; on success `manager.disconnect` erases
the session from every dictionary and `session_ended` reports the duration. -/
def handle_end_session (sid : String) (mgr : Manager) (clk : Nat) :
    List OutMsg × Manager × Nat :=
  match alookup mgr.session_connectors sid with
  | none => ([sessionNotFoundMsg sid], mgr, clk)
  | some conn =>
      match connector_end_session sid conn clk with
      | (.error _, clk2) =>
          ([.error "SESSION_END_ERROR" "Failed to end session"], mgr, clk2)
      | (.ok (dur, _), clk2) =>
          ([.sessionEnded sid dur],
           { session_connectors := aerase mgr.session_connectors sid,
             room_sessions := aerase mgr.room_sessions sid }, clk2)

/-! ### The message loop (`livekit_endpoint`) -/

/-- The fields the handlers read from one parsed inbound JSON object; a field
the client did not send is `none` (`config` defaults to the empty map via the
pydantic `default_factory`). -/
structure RawMsg where
  action : Option String
  session_id : Option String
  user_id : Option String
  data : Option String
  config : List (String × String)
deriving DecidableEq, Repr

/-- One inbound transport frame: text that fails `json.loads`; valid JSON
that is not an object (`null`, a number, a list, a string — all parse but
make `data.get("action")` raise `AttributeError`); or a parsed JSON object.
All non-object JSON values behave identically in the source, so one
constructor covers them. -/
inductive Frame where
  | badJson
  | nonObj
  | obj (m : RawMsg)
deriving DecidableEq, Repr

/-- The four dispatch targets of the `livekit_endpoint` action chain. -/
inductive Command where
  | start (m : RawMsg)
  | audioIn (m : RawMsg)
  | screenFrame (m : RawMsg)
  | endSess (m : RawMsg)
deriving DecidableEq, Repr

/-- The error sent on a `json.JSONDecodeError`. -/
def invalidJsonMsg : OutMsg := .error "INVALID_JSON" "Invalid JSON format"

/-- The error sent for an unrecognized (or absent) action string. -/
def invalidActionMsg (a : Option String) : OutMsg :=
  .error "INVALID_ACTION" ("Unknown action: " ++ a.getD "None")

/-- The error the generic `except Exception` of the message loop sends; for
a valid-JSON-non-object frame it is reached already at decode time, by the
`AttributeError` out of `data.get("action")`. -/
def internalErrorMsg : OutMsg :=
  .error "INTERNAL_ERROR" "Internal server error"

/-- The decode phase of `livekit_endpoint`: each inbound frame becomes
exactly one command or exactly one error message, and never an uncaught
exception.  A non-object JSON frame ends in the loop's generic `except`,
which reports `INTERNAL_ERROR`. -/
def decodeMessage : Frame → Command ⊕ OutMsg
  | .badJson => .inr invalidJsonMsg
  | .nonObj => .inr internalErrorMsg
  | .obj m =>
      if m.action = some "start_session" then .inl (.start m)
      else if m.action = some "audio_input" then .inl (.audioIn m)
      else if m.action = some "screen_share_frame" then .inl (.screenFrame m)
      else if m.action = some "end_session" then .inl (.endSess m)
      else .inr (invalidActionMsg m.action)

/-- The per-message oracle: what the AI does for the generation call of this message, and the fresh UUID that would be drawn if the client sent no session
identifier. -/
structure Env where
  b : AIBehavior
  fresh : String
deriving DecidableEq, Repr

/-- Dispatch one decoded command, including the pydantic validation each
handler performs on its required fields (a validation failure is caught by
the outer `except` of that handler and reported under its error code). -/
def runCommand (cfg : Settings) (env : Env) :
    Command → Manager → Nat → List OutMsg × Manager × Nat
  | .start m, mgr, clk =>
      match m.user_id with
      | none => ([.error "SESSION_START_ERROR" "Failed to start session"], mgr, clk)
      | some uid =>
          handle_start_session cfg env.b (m.session_id.getD env.fresh) uid
            m.config mgr clk
  | .audioIn m, mgr, clk =>
      match m.session_id, m.data with
      | some sid, some d =>
          handle_audio_input (geminiAudioProc env.b d sid) sid mgr clk
      | _, _ => ([.error "AUDIO_PROCESSING_ERROR" "Failed to process audio"], mgr, clk)
  | .screenFrame m, mgr, clk =>
      match m.session_id, m.data with
      | some sid, some d =>
          handle_screen_share_frame (geminiScreenProc env.b d sid) sid mgr clk
      | _, _ => ([.error "SCREEN_SHARE_ERROR" "Failed to process screen share"], mgr, clk)
  | .endSess m, mgr, clk =>
      match m.session_id with
      | some sid => handle_end_session sid mgr clk
      | none => ([.error "SESSION_END_ERROR" "Failed to end session"], mgr, clk)

/-- One iteration of the `async for` message loop. -/
def stepMsg (cfg : Settings) (env : Env) (f : Frame) (mgr : Manager)
    (clk : Nat) : List OutMsg × Manager × Nat :=
  match decodeMessage f with
  | .inr e => ([e], mgr, clk)
  | .inl c => runCommand cfg env c mgr clk

/-- The whole message loop of one connection: messages are handled strictly
one after another (each handler is awaited to completion before the next
`iter_text` item is taken), so the loop is a sequential fold. -/
def processLoop (cfg : Settings) :
    List (Frame × Env) → Manager → Nat → List OutMsg × Manager × Nat
  | [], mgr, clk => ([], mgr, clk)
  | (f, env) :: rest, mgr, clk =>
      let r := stepMsg cfg env f mgr clk
      let r2 := processLoop cfg rest r.2.1 r.2.2
      (r.1 ++ r2.1, r2.2.1, r2.2.2)

/-! ### Helper definitions for the verification -/

/-- A connector that passes the guard of the processing generators: connected
and holding a session dict. -/
def connReady (c : Connector) : Bool := c.is_connected && c.session.isSome

/-- Number of error messages carrying a given code. -/
def countCode (code : String) : List OutMsg → Nat
  | [] => 0
  | .error c _ :: ms => (if c = code then 1 else 0) + countCode code ms
  | _ :: ms => countCode code ms

/-- Concatenation of the images of a list-valued function, in order. -/
def concatMap {α β : Type} (f : α → List β) : List α → List β
  | [] => []
  | a :: as => f a ++ concatMap f as

/-- An `audio_input` frame for a given session and payload, paired with the
oracle saying what the AI answers for it. -/
def audioFrame (sid d : String) (b : AIBehavior) : Frame × Env :=
  (Frame.obj { action := some "audio_input", session_id := some sid,
               user_id := none, data := some d, config := [] },
   { b := b, fresh := "unused" })

/-- N successive audio submissions to the same session, the AI answering the
i-th with text `ts[i]`. -/
def audioFrames (sid d : String) (ts : List String) : List (Frame × Env) :=
  ts.map (fun t => audioFrame sid d (.ok t))

/-- Concrete development-style settings (the room prefix and URL are the
config defaults; key and secret are required and have no default). -/
def demoSettings : Settings :=
  { livekit_api_key := "devkey", livekit_api_secret := "devsecret",
    livekit_room_pfx := "voice-ai", livekit_url := "ws://localhost:7880" }

/-- The manager at service start: all dictionaries empty. -/
def emptyManager : Manager := { session_connectors := [], room_sessions := [] }

/-- Whether an outbound message is an error message. -/
def isErrMsg : OutMsg → Bool
  | .error _ _ => true
  | _ => false

/-- A concrete active session record for session `s1` and user `u1`. -/
def readySess : ConnSession :=
  { id := "s1", user_id := "u1", history := [], config := [],
    start_time := 0, status := "active", end_time := none }

/-- A concrete connector holding an active session `s1` for user `u1`. -/
def readyConn : Connector :=
  { session := some readySess, is_connected := true }

/-- A concrete manager in which session `s1` is registered and active. -/
def mgr1 : Manager :=
  { session_connectors := [("s1", readyConn)],
    room_sessions := [("s1", { room_name := "voice-ai-s1", user_id := "u1",
                               access_token := "tok", start_time := 0,
                               status := "active" })] }

/-- A stream that produces one text event and then raises, together with an
unchanged connector: the shape `handle_audio_input` sees when consumption of
the response stream throws mid-way. -/
def raisingProc (c : Connector) (clk : Nat) : AIStream × Connector × Nat :=
  ({ events := [.text_response "partial"], raises := true }, c, clk + 1)

/-! ### Association-list lemmas -/

theorem alookup_aset_self {α : Type} (l : List (String × α)) (k : String)
    (v : α) : alookup (aset l k v) k = some v := by
  induction l with
  | nil => simp [aset, alookup]
  | cons hd tl ih =>
      obtain ⟨k2, w⟩ := hd
      by_cases h : k2 = k
      · simp [aset, h, alookup]
      · simp [aset, h, alookup, ih]

theorem alookup_aset_ne {α : Type} (l : List (String × α)) (k k2 : String)
    (v : α) (h : k ≠ k2) : alookup (aset l k v) k2 = alookup l k2 := by
  induction l with
  | nil => simp [aset, alookup, h]
  | cons hd tl ih =>
      obtain ⟨k3, w⟩ := hd
      by_cases h3 : k3 = k
      · subst h3; simp [aset, alookup, h]
      · simp [aset, h3, alookup, ih]

theorem alookup_aerase_self {α : Type} (l : List (String × α)) (k : String) :
    alookup (aerase l k) k = none := by
  induction l with
  | nil => simp [aerase, alookup]
  | cons hd tl ih =>
      obtain ⟨k2, w⟩ := hd
      by_cases h : k2 = k
      · simp [aerase, h, ih]
      · simp [aerase, h, alookup, ih]

theorem aset_self {α : Type} (l : List (String × α)) (k : String) (v : α)
    (h : alookup l k = some v) : aset l k v = l := by
  induction l with
  | nil => simp [alookup] at h
  | cons hd tl ih =>
      obtain ⟨k2, w⟩ := hd
      by_cases hk : k2 = k
      · subst hk
        simp [alookup] at h
        simp [aset, h]
      · simp [alookup, hk] at h
        simp [aset, hk, ih h]

/-! ### Counting lemmas -/

theorem countCode_append (code : String) (l1 l2 : List OutMsg) :
    countCode code (l1 ++ l2) = countCode code l1 + countCode code l2 := by
  induction l1 with
  | nil => simp [countCode]
  | cons m ms ih =>
      cases m <;> simp [countCode, ih, Nat.add_assoc]

theorem countCode_renderAudio (sid code : String) (evs : List AIEvent)
    (h : code ≠ "AUDIO_PROCESSING_ERROR") :
    countCode code (evs.map (renderAudioEvent sid)) = 0 := by
  induction evs with
  | nil => simp [countCode]
  | cons e es ih =>
      cases e <;> simp [renderAudioEvent, countCode, ih, Ne.symm h]

/-! ### Claim theorems -/

/-- C3: an audio or screen-share submission whose session identifier is not
registered (never created, or ended and removed) yields exactly one error
message, with code `SESSION_NOT_FOUND`, performs no AI-port call (the result
is identical for every possible response stream), and mutates no state. -/
theorem submitToUnknownSessionFails (sid : String) (mgr : Manager) (clk : Nat)
    (h : alookup mgr.session_connectors sid = none) :
    (∀ proc, handle_audio_input proc sid mgr clk
        = ([sessionNotFoundMsg sid], mgr, clk)) ∧
    (∀ proc, handle_screen_share_frame proc sid mgr clk
        = ([sessionNotFoundMsg sid], mgr, clk)) := by
  refine ⟨fun proc => ?_, fun proc => ?_⟩ <;>
    simp [handle_audio_input, handle_screen_share_frame, h]

theorem submitToUnknownSessionFails_witness :
    handle_audio_input (geminiAudioProc .raises "ZGF0YQ==" "ghost") "ghost"
        emptyManager 0
      = ([sessionNotFoundMsg "ghost"], emptyManager, 0) :=
  (submitToUnknownSessionFails "ghost" emptyManager 0 rfl).1 _

/-- C10: when the AI returns a response carrying no text (a `None` response
or empty text), the processing generators yield no events at all and append
nothing to the session history, and the handlers send no message: the caller
observes complete silence, for both audio and screen-share submissions. -/
theorem noTextMeansSilence (sid d : String) (mgr : Manager) (clk : Nat)
    (conn : Connector) (hc : alookup mgr.session_connectors sid = some conn)
    (hr : connReady conn = true) :
    process_audio_input (.ok "") d sid conn clk = ([], conn, clk) ∧
    process_screen_share (.ok "") d sid conn clk = ([], conn, clk) ∧
    handle_audio_input (geminiAudioProc (.ok "") d sid) sid mgr clk
      = ([], mgr, clk) ∧
    handle_screen_share_frame (geminiScreenProc (.ok "") d sid) sid mgr clk
      = ([], mgr, clk) := by
  have hr2 := hr
  simp [connReady, Bool.and_eq_true, Option.isSome_iff_exists] at hr2
  obtain ⟨h1, s, hs⟩ := hr2
  have hpa : process_audio_input (.ok "") d sid conn clk = ([], conn, clk) := by
    simp [process_audio_input, h1, hs]
  have hps : process_screen_share (.ok "") d sid conn clk = ([], conn, clk) := by
    simp [process_screen_share, h1, hs]
  refine ⟨hpa, hps, ?_, ?_⟩ <;>
    simp [handle_audio_input, handle_screen_share_frame, hc, geminiAudioProc,
          geminiScreenProc, hpa, hps, aset_self _ _ _ hc]

theorem noTextMeansSilence_witness :
    handle_audio_input (geminiAudioProc (.ok "") "ZGF0YQ==" "s1") "s1" mgr1 3
      = ([], mgr1, 3) :=
  (noTextMeansSilence "s1" "ZGF0YQ==" mgr1 3 readyConn (by decide)
    (by decide)).2.2.1

/-- C6: on an active session, an AI response with non-empty text makes the
audio handler emit a `text_response` followed by an `audio_output`, in that
order, with the audio payload the empty string (text-to-speech deliberately
unimplemented); a raising AI call instead surfaces as the single error event
the generator yields, emitted as one `AUDIO_PROCESSING_ERROR` message. -/
theorem textThenEmptyAudioOutput (sid d t : String) (mgr : Manager)
    (clk : Nat) (conn : Connector)
    (hc : alookup mgr.session_connectors sid = some conn)
    (hr : connReady conn = true) (ht : t ≠ "") :
    (handle_audio_input (geminiAudioProc (.ok t) d sid) sid mgr clk).1
      = [.textResponse sid t, .audioOutput sid "" "wav" 16000 1] ∧
    (handle_audio_input (geminiAudioProc .raises d sid) sid mgr clk).1
      = [.error "AUDIO_PROCESSING_ERROR"
               "Audio processing failed, please try again"] := by
  have hr2 := hr
  simp [connReady, Bool.and_eq_true, Option.isSome_iff_exists] at hr2
  obtain ⟨h1, s, hs⟩ := hr2
  constructor <;>
    simp [handle_audio_input, hc, geminiAudioProc, process_audio_input,
          h1, hs, ht, renderAudioEvent]

theorem textThenEmptyAudioOutput_witness :
    (handle_audio_input (geminiAudioProc (.ok "hi") "ZGF0YQ==" "s1") "s1"
        mgr1 0).1
      = [.textResponse "s1" "hi", .audioOutput "s1" "" "wav" 16000 1] :=
  (textThenEmptyAudioOutput "s1" "ZGF0YQ==" "hi" mgr1 0 readyConn (by decide)
    (by decide) (by decide)).1

/-- C5: if consuming the AI response stream of an audio submission throws an
unexpected exception mid-way, the handler emits exactly one error message
with code `CRITICAL_AUDIO_ERROR`; the session stays registered (mapped to
the connector as the stream left it) and its room record — hence its
queryable `active` status — is untouched.  The last conjunct shows the real
mutations made by the real generator never change whether the session is active, so the
partially-consumed stream cannot have deactivated it. -/
theorem criticalAudioErrorKeepsSession (sid : String) (mgr : Manager)
    (clk : Nat) (conn : Connector)
    (proc : Connector → Nat → AIStream × Connector × Nat)
    (hc : alookup mgr.session_connectors sid = some conn)
    (hraise : (proc conn clk).1.raises = true) :
    countCode "CRITICAL_AUDIO_ERROR" (handle_audio_input proc sid mgr clk).1
      = 1 ∧
    alookup ((handle_audio_input proc sid mgr clk).2.1).session_connectors sid
      = some (proc conn clk).2.1 ∧
    ((handle_audio_input proc sid mgr clk).2.1).room_sessions
      = mgr.room_sessions ∧
    (∀ b d c2 k2, is_session_active (geminiAudioProc b d sid c2 k2).2.1 sid
        = is_session_active c2 sid) := by
  refine ⟨?_, ?_, ?_, ?_⟩
  · simp [handle_audio_input, hc, hraise, countCode_append,
          countCode_renderAudio sid "CRITICAL_AUDIO_ERROR"
            (proc conn clk).1.events (by decide), countCode]
  · simp [handle_audio_input, hc, alookup_aset_self]
  · simp [handle_audio_input, hc]
  · intro b d c2 k2
    by_cases hg : c2.is_connected = false ∨ c2.session = none
    · rcases b <;> simp [geminiAudioProc, process_audio_input, hg]
    · push_neg at hg
      obtain ⟨hg1, hg2⟩ := hg
      have hg3 : c2.is_connected = true := by
        cases hcon : c2.is_connected
        · exact absurd hcon hg1
        · rfl
      rcases hcs : c2.session with _ | s
      · exact absurd hcs hg2
      rcases b with _ | t
      · simp [geminiAudioProc, process_audio_input, hg3, hcs]
      · by_cases ht : t = ""
        · simp [geminiAudioProc, process_audio_input, hg3, hcs, ht]
        · simp [geminiAudioProc, process_audio_input, hg3, hcs, ht,
                is_session_active]

theorem criticalAudioErrorKeepsSession_witness :
    countCode "CRITICAL_AUDIO_ERROR"
        (handle_audio_input raisingProc "s1" mgr1 0).1 = 1 ∧
    ((handle_audio_input raisingProc "s1" mgr1 0).2.1).room_sessions
      = mgr1.room_sessions :=
  ⟨(criticalAudioErrorKeepsSession "s1" mgr1 0 readyConn raisingProc
      (by decide) (by decide)).1,
   (criticalAudioErrorKeepsSession "s1" mgr1 0 readyConn raisingProc
      (by decide) (by decide)).2.2.1⟩

/-- C1 counterexample: with a fresh identifier `s1` and the upstream AI
greeting call raising, the start handler returns an error result
(`SESSION_START_ERROR`) and registers no session — the claim promises that
session start succeeds with the fallback greeting in exactly this case. -/
theorem startSessionGreetingFallback_cex :
    (handle_start_session demoSettings .raises "s1" "u1" [] emptyManager 0).1
      = [.error "SESSION_START_ERROR" "Failed to start session"] ∧
    alookup ((handle_start_session demoSettings .raises "s1" "u1" []
        emptyManager 0).2.1).session_connectors "s1" = none :=
  ⟨rfl, rfl⟩

/-- C1 (amended): with a fresh identifier, session start succeeds with a
non-empty greeting whenever the upstream AI greeting call returns a response
— a response with no text falls back to the fixed default greeting — but
when the greeting call raises, the handler reports `SESSION_START_ERROR`
and no session is created. -/
theorem startSessionGreetingFallback (g sid uid : String)
    (cfgm : List (String × String)) (cfg : Settings) (mgr : Manager)
    (clk : Nat) (hfresh : alookup mgr.session_connectors sid = none) :
    (connector_start_session (.ok g) sid uid cfgm initConnector (clk + 1)).1
      = .ok { status := "success", session_id := sid,
              message := "Session started successfully",
              greeting := if g = "" then defaultGreeting else g } ∧
    (if g = "" then defaultGreeting else g) ≠ "" ∧
    (handle_start_session cfg (.ok g) sid uid cfgm mgr clk).1
      = [.sessionStarted sid (cfg.livekit_room_pfx ++ "-" ++ sid)
          (create_access_token cfg (cfg.livekit_room_pfx ++ "-" ++ sid) uid clk)
          cfg.livekit_url] ∧
    (alookup ((handle_start_session cfg (.ok g) sid uid cfgm mgr
        clk).2.1).session_connectors sid).isSome = true ∧
    (handle_start_session cfg .raises sid uid cfgm mgr clk).1
      = [.error "SESSION_START_ERROR" "Failed to start session"] ∧
    (handle_start_session cfg .raises sid uid cfgm mgr clk).2.1 = mgr := by
  refine ⟨?_, ?_, ?_, ?_, ?_, ?_⟩ <;>
    by_cases hg : g = "" <;>
      simp [handle_start_session, connector_start_session, hg,
            alookup_aset_self, defaultGreeting]

theorem startSessionGreetingFallback_witness :
    (connector_start_session (.ok "") "s1" "u1" [] initConnector 1).1
      = .ok { status := "success", session_id := "s1",
              message := "Session started successfully",
              greeting := if "" = "" then defaultGreeting else "" } ∧
    (if "" = "" then defaultGreeting else "") ≠ "" :=
  ⟨(startSessionGreetingFallback "" "s1" "u1" [] demoSettings emptyManager 0
      rfl).1,
   (startSessionGreetingFallback "" "s1" "u1" [] demoSettings emptyManager 0
      rfl).2.1⟩

/-- C2 counterexample: starting a session whose identifier `s1` is already
registered for user `u1` emits no error message at all — a single
`session_started` success — and overwrites the room record, whose owner
becomes `u2`: there is no `DuplicateSession` failure and the previously
registered state is not left unchanged. -/
theorem duplicateStartOverwrites_cex :
    ((handle_start_session demoSettings (.ok "hello") "s1" "u2" [] mgr1
        10).1.filter isErrMsg = []) ∧
    ((handle_start_session demoSettings (.ok "hello") "s1" "u2" [] mgr1
        10).1.length = 1) ∧
    ((alookup (handle_start_session demoSettings (.ok "hello") "s1" "u2" []
        mgr1 10).2.1.room_sessions "s1").map RoomSession.user_id
      = some "u2") ∧
    ((alookup mgr1.room_sessions "s1").map RoomSession.user_id
      = some "u1") :=
  ⟨rfl, rfl, rfl, rfl⟩

/-- C2 (amended): a start-session command whose identifier already exists
does not fail; it succeeds with a single `session_started` message and
overwrites the previous registration — the connector binding becomes the
newly started connector and the room record is replaced by one owned by the
user of the new request. -/
theorem duplicateStartOverwrites (g sid uid2 : String)
    (cfgm : List (String × String)) (cfg : Settings) (mgr : Manager)
    (clk : Nat) (conn : Connector)
    (hdup : alookup mgr.session_connectors sid = some conn) :
    (handle_start_session cfg (.ok g) sid uid2 cfgm mgr clk).1
      = [.sessionStarted sid (cfg.livekit_room_pfx ++ "-" ++ sid)
          (create_access_token cfg (cfg.livekit_room_pfx ++ "-" ++ sid) uid2
            clk)
          cfg.livekit_url] ∧
    alookup ((handle_start_session cfg (.ok g) sid uid2 cfgm mgr
        clk).2.1).session_connectors sid
      = some ((connector_start_session (.ok g) sid uid2 cfgm initConnector
          (clk + 1)).2.1) ∧
    (alookup ((handle_start_session cfg (.ok g) sid uid2 cfgm mgr
        clk).2.1).room_sessions sid).map RoomSession.user_id = some uid2 := by
  refine ⟨?_, ?_, ?_⟩ <;>
    by_cases hg : g = "" <;>
      simp [handle_start_session, connector_start_session, hg,
            alookup_aset_self]

theorem duplicateStartOverwrites_witness :
    (alookup ((handle_start_session demoSettings (.ok "hello") "s1" "u2" []
        mgr1 10).2.1).room_sessions "s1").map RoomSession.user_id
      = some "u2" :=
  (duplicateStartOverwrites "hello" "s1" "u2" [] demoSettings mgr1 10
    readyConn (by decide)).2.2

/-- C4: ending an existing active session returns the duration end − start
(non-negative, since the end timestamp is sampled at or after the start),
removes the session from every registry dictionary, and every subsequent
end-session or audio submission on the same identifier fails with
`SESSION_NOT_FOUND` instead of silently succeeding. -/
theorem endSessionRemoves (sid : String) (mgr : Manager) (clk : Nat)
    (conn : Connector) (s : ConnSession)
    (hc : alookup mgr.session_connectors sid = some conn)
    (hs : conn.session = some s) (hid : s.id = sid)
    (hmono : s.start_time ≤ clk) :
    (handle_end_session sid mgr clk).1
      = [.sessionEnded sid ((clk : Int) - (s.start_time : Int))] ∧
    0 ≤ (clk : Int) - (s.start_time : Int) ∧
    alookup ((handle_end_session sid mgr clk).2.1).session_connectors sid
      = none ∧
    alookup ((handle_end_session sid mgr clk).2.1).room_sessions sid
      = none ∧
    (∀ clk2, (handle_end_session sid ((handle_end_session sid mgr clk).2.1)
        clk2).1 = [sessionNotFoundMsg sid]) ∧
    (∀ proc clk2, (handle_audio_input proc sid ((handle_end_session sid mgr
        clk).2.1) clk2).1 = [sessionNotFoundMsg sid]) := by
  have hrun : handle_end_session sid mgr clk
      = ([.sessionEnded sid ((clk : Int) - (s.start_time : Int))],
         { session_connectors := aerase mgr.session_connectors sid,
           room_sessions := aerase mgr.room_sessions sid }, clk + 1) := by
    simp [handle_end_session, hc, connector_end_session, hs, hid]
  refine ⟨by simp [hrun], by omega, by simp [hrun, alookup_aerase_self],
          by simp [hrun, alookup_aerase_self], ?_, ?_⟩
  · intro clk2
    rw [hrun]
    simp [handle_end_session, alookup_aerase_self]
  · intro proc clk2
    rw [hrun]
    simp [handle_audio_input, alookup_aerase_self]

/-- Unfolding equation of the message loop on a cons cell. -/
theorem processLoop_cons (cfg : Settings) (f : Frame) (env : Env)
    (rest : List (Frame × Env)) (mgr : Manager) (clk : Nat) :
    processLoop cfg ((f, env) :: rest) mgr clk
      = ((stepMsg cfg env f mgr clk).1
           ++ (processLoop cfg rest (stepMsg cfg env f mgr clk).2.1
                 (stepMsg cfg env f mgr clk).2.2).1,
         (processLoop cfg rest (stepMsg cfg env f mgr clk).2.1
            (stepMsg cfg env f mgr clk).2.2).2) := rfl

/-- One successful audio submission on an active session: the handler emits
the text response and the empty audio output, bumps the clock by the four
samples taken, and re-stores a connector that is still ready. -/
theorem handle_audio_ok (sid d t : String) (mgr : Manager) (clk : Nat)
    (conn : Connector) (hc : alookup mgr.session_connectors sid = some conn)
    (hr : connReady conn = true) (ht : t ≠ "") :
    ∃ conn2, handle_audio_input (geminiAudioProc (.ok t) d sid) sid mgr clk
        = ([.textResponse sid t, .audioOutput sid "" "wav" 16000 1],
           { mgr with
               session_connectors := aset mgr.session_connectors sid conn2 },
           clk + 4) ∧
      connReady conn2 = true := by
  have hr2 := hr
  simp [connReady, Bool.and_eq_true, Option.isSome_iff_exists] at hr2
  obtain ⟨h1, s, hs⟩ := hr2
  refine ⟨{ conn with session := some { s with history := s.history ++
      [{ kind := "user_audio", content := none, timestamp := clk,
         session_id := sid },
       { kind := "assistant_text", content := some t, timestamp := clk + 1,
         session_id := sid }] } }, ?_, ?_⟩
  · simp [handle_audio_input, hc, geminiAudioProc, process_audio_input,
          h1, hs, ht, renderAudioEvent]
  · simp [connReady, h1]

theorem endSessionRemoves_witness :
    alookup ((handle_end_session "s1" mgr1 5).2.1).session_connectors "s1"
      = none ∧
    (handle_end_session "s1" ((handle_end_session "s1" mgr1 5).2.1) 9).1
      = [sessionNotFoundMsg "s1"] :=
  ⟨(endSessionRemoves "s1" mgr1 5 readyConn readySess (by decide) rfl rfl
      (by decide)).2.2.1,
   (endSessionRemoves "s1" mgr1 5 readyConn readySess (by decide) rfl rfl
      (by decide)).2.2.2.2.1 9⟩

/-! ### Token lemmas -/

theorem wordToBytes_lt (w : Nat) : ∀ b ∈ wordToBytes w, b < 256 := by
  intro b hb
  simp [wordToBytes] at hb
  rcases hb with h | h | h | h <;> subst h <;> omega

theorem sha256_lt (m : List Nat) : ∀ b ∈ sha256 m, b < 256 := by
  intro b hb
  simp only [sha256, List.mem_flatten, List.mem_map] at hb
  obtain ⟨l, ⟨w, hw, rfl⟩, hbl⟩ := hb
  exact wordToBytes_lt w b hbl

theorem hmacSha256_lt (k m : List Nat) : ∀ b ∈ hmacSha256 k m, b < 256 := by
  simp only [hmacSha256]
  exact sha256_lt _

theorem hexDigit_ne_colon (n : Nat) (h : n < 16) : hexDigit n ≠ ':' := by
  interval_cases n <;> decide

theorem bytesToHex_no_colon (bs : List Nat) (h : ∀ b ∈ bs, b < 256) :
    ∀ ch ∈ (bytesToHex bs).data, ch ≠ ':' := by
  intro ch hch
  simp only [bytesToHex, List.mem_flatten, List.mem_map] at hch
  obtain ⟨l, ⟨b, hb, rfl⟩, hcl⟩ := hch
  have hb2 := h b hb
  simp only [byteToHex, List.mem_cons, List.not_mem_nil, or_false] at hcl
  rcases hcl with rfl | rfl
  · exact hexDigit_ne_colon _ (by omega)
  · exact hexDigit_ne_colon _ (by omega)

theorem dropWhile_append_of_all (p : Char → Bool) (A B : List Char)
    (h : ∀ a ∈ A, p a = true) :
    List.dropWhile p (A ++ B) = List.dropWhile p B := by
  induction A with
  | nil => rfl
  | cons a A ih =>
      simp only [List.cons_append, List.dropWhile_cons, h a (by simp),
                 if_true]
      exact ih (fun x hx => h x (by simp [hx]))

theorem takeWhile_append_stop (p : Char → Bool) (A : List Char) (c : Char)
    (B : List Char) (h : ∀ a ∈ A, p a = true) (hc : p c = false) :
    List.takeWhile p (A ++ c :: B) = A := by
  induction A with
  | nil => simp [List.takeWhile_cons, hc]
  | cons a A ih =>
      simp only [List.cons_append, List.takeWhile_cons, h a (by simp),
                 if_true, List.cons.injEq, true_and]
      exact ih (fun x hx => h x (by simp [hx]))

/-- A token of the issued shape — canonical data, a colon, a colon-free
signature that is the HMAC-SHA256 hex of the data under the secret —
validates. -/
theorem validate_token_ok (secret data sig : String)
    (hsig : sig = bytesToHex (hmacSha256 (strBytes secret) (strBytes data)))
    (hnc : ∀ ch ∈ sig.data, ch ≠ ':') :
    validate_token secret (data ++ ":" ++ sig) = true := by
  have hdata : (data ++ ":" ++ sig).data = data.data ++ ':' :: sig.data := by
    simp [String.data_append]
  have hrev : (data.data ++ ':' :: sig.data).reverse
      = sig.data.reverse ++ ':' :: data.data.reverse := by
    simp [List.reverse_append]
  have hall : ∀ a ∈ sig.data.reverse, (a != ':') = true := by
    intro a ha
    simpa [bne_iff_ne] using hnc a (by simpa using ha)
  have hdrop : List.dropWhile (fun ch => ch != ':')
      (sig.data.reverse ++ ':' :: data.data.reverse)
      = ':' :: data.data.reverse := by
    rw [dropWhile_append_of_all _ _ _ hall]
    simp [List.dropWhile_cons]
  have htake : List.takeWhile (fun ch => ch != ':')
      (sig.data.reverse ++ ':' :: data.data.reverse)
      = sig.data.reverse := by
    rw [takeWhile_append_stop _ _ _ _ hall (by simp)]
  simp only [validate_token, hdata, hrev, hdrop, htake]
  simp [← hsig]

/-- C7 counterexample: a frame that is valid JSON but not a JSON object —
`null`, a number, a list, a string — decodes to an error message whose code
is `INTERNAL_ERROR` (the `AttributeError` from `data.get("action")` lands in
the generic `except` of the loop), not to a command and not to an error with
code `INVALID_ACTION` or `INVALID_JSON`; the claim allows only those two
decode-failure codes.  The loop still survives it: the step emits exactly
that one message and leaves all state unchanged. -/
theorem decodeExactlyOneCommandOrError_cex :
    decodeMessage Frame.nonObj = Sum.inr internalErrorMsg ∧
    countCode "INVALID_ACTION" [internalErrorMsg] = 0 ∧
    countCode "INVALID_JSON" [internalErrorMsg] = 0 ∧
    countCode "INTERNAL_ERROR" [internalErrorMsg] = 1 ∧
    stepMsg demoSettings { b := .ok "x", fresh := "f" } Frame.nonObj
        emptyManager 0
      = ([internalErrorMsg], emptyManager, 0) :=
  ⟨rfl, rfl, rfl, rfl, rfl⟩

/-- C7 (amended): every inbound transport frame decodes into exactly one of
the four commands or into exactly one error message — `INVALID_JSON` for
text that fails JSON parsing, `INTERNAL_ERROR` for valid JSON that is not an
object, `INVALID_ACTION` for an object with an unknown (or missing) action
string — and on a decode failure the loop step sends exactly that one error
message and leaves all state unchanged; decoding is a total function, so no
decode failure can raise out of the message loop or close the connection. -/
theorem decodeExactlyOneCommandOrError :
    (decodeMessage .badJson = .inr invalidJsonMsg) ∧
    (decodeMessage .nonObj = .inr internalErrorMsg) ∧
    (∀ m : RawMsg, m.action = some "start_session" →
        decodeMessage (.obj m) = .inl (.start m)) ∧
    (∀ m : RawMsg, m.action = some "audio_input" →
        decodeMessage (.obj m) = .inl (.audioIn m)) ∧
    (∀ m : RawMsg, m.action = some "screen_share_frame" →
        decodeMessage (.obj m) = .inl (.screenFrame m)) ∧
    (∀ m : RawMsg, m.action = some "end_session" →
        decodeMessage (.obj m) = .inl (.endSess m)) ∧
    (∀ m : RawMsg, m.action ∉ ([some "start_session", some "audio_input",
        some "screen_share_frame", some "end_session"] :
          List (Option String)) →
        decodeMessage (.obj m) = .inr (invalidActionMsg m.action)) ∧
    (∀ cfg env f e mgr clk, decodeMessage f = Sum.inr e →
        stepMsg cfg env f mgr clk = ([e], mgr, clk)) := by
  refine ⟨rfl, rfl, ?_, ?_, ?_, ?_, ?_, ?_⟩
  · intro m hm; simp [decodeMessage, hm]
  · intro m hm; simp [decodeMessage, hm]
  · intro m hm; simp [decodeMessage, hm]
  · intro m hm; simp [decodeMessage, hm]
  · intro m hm
    simp only [List.mem_cons, List.not_mem_nil, or_false, not_or] at hm
    obtain ⟨h1, h2, h3, h4⟩ := hm
    simp [decodeMessage, h1, h2, h3, h4]
  · intro cfg env f e mgr clk hde
    simp [stepMsg, hde]

theorem decodeExactlyOneCommandOrError_witness :
    decodeMessage
        (.obj { action := some "start_session", session_id := none,
                user_id := some "u1", data := none, config := [] })
      = .inl (.start { action := some "start_session", session_id := none,
                       user_id := some "u1", data := none, config := [] }) ∧
    stepMsg demoSettings { b := .ok "x", fresh := "f" } .badJson
        emptyManager 0
      = ([invalidJsonMsg], emptyManager, 0) :=
  ⟨decodeExactlyOneCommandOrError.2.2.1 _ rfl,
   decodeExactlyOneCommandOrError.2.2.2.2.2.2.2 demoSettings
     { b := .ok "x", fresh := "f" } .badJson invalidJsonMsg emptyManager 0
     rfl⟩

/-- C8: for any sequence of audio submissions to one active session, the
emitted messages are exactly the per-submission response blocks (text
response, then audio output) concatenated in submission order: each
response stream of a submission is consumed to completion before the next
inbound message for that session is processed, so responses never interleave
or reorder across submissions. -/
theorem audioResponsesInSubmissionOrder (ts : List String) (sid d : String)
    (cfg : Settings) (mgr : Manager) (clk : Nat) (conn : Connector)
    (hc : alookup mgr.session_connectors sid = some conn)
    (hr : connReady conn = true) (hts : ∀ t ∈ ts, t ≠ "") :
    (processLoop cfg (audioFrames sid d ts) mgr clk).1
      = concatMap (fun t => [OutMsg.textResponse sid t,
          OutMsg.audioOutput sid "" "wav" 16000 1]) ts := by
  induction ts generalizing mgr clk conn with
  | nil => simp [audioFrames, processLoop, concatMap]
  | cons t ts ih =>
      obtain ⟨conn2, heq, hr2⟩ :=
        handle_audio_ok sid d t mgr clk conn hc hr (hts t (by simp))
      have hstep : stepMsg cfg { b := .ok t, fresh := "unused" }
          (Frame.obj { action := some "audio_input", session_id := some sid,
                       user_id := none, data := some d, config := [] }) mgr clk
          = ([.textResponse sid t, .audioOutput sid "" "wav" 16000 1],
             { mgr with
                 session_connectors := aset mgr.session_connectors sid conn2 },
             clk + 4) := by
        simpa [stepMsg, decodeMessage, runCommand] using heq
      rw [show audioFrames sid d (t :: ts)
            = (Frame.obj { action := some "audio_input",
                           session_id := some sid, user_id := none,
                           data := some d, config := [] },
               ({ b := .ok t, fresh := "unused" } : Env))
              :: audioFrames sid d ts from rfl,
          processLoop_cons, hstep]
      have ih2 := ih
        { mgr with
            session_connectors := aset mgr.session_connectors sid conn2 }
        (clk + 4) conn2
        (alookup_aset_self _ _ _) hr2 (fun t2 ht2 => hts t2 (by simp [ht2]))
      simpa [concatMap] using ih2

theorem audioResponsesInSubmissionOrder_witness :
    (processLoop demoSettings (audioFrames "s1" "ZGF0YQ==" ["one", "two"])
        mgr1 0).1
      = concatMap (fun t => [OutMsg.textResponse "s1" t,
          OutMsg.audioOutput "s1" "" "wav" 16000 1]) ["one", "two"] :=
  audioResponsesInSubmissionOrder ["one", "two"] "s1" "ZGF0YQ==" demoSettings
    mgr1 0 readyConn (by decide) (by decide) (by decide)

/-- C9: token issuance at time `t` produces the canonical string
`key:identity:room:expiry` with expiry `t + 3600`, joined by a colon to the
hex HMAC-SHA256 signature, under the symmetric secret, of exactly that
canonical string; two issuances at distinct times embed distinct expiries;
every issued token validates against the same secret; and at the two
concrete issuance times 0 and 1 the embedded signatures indeed differ. -/
theorem accessTokenCanonicalSigned (cfg : Settings) (room idt : String)
    (t t1 t2 : Nat) :
    create_access_token cfg room idt t
      = (cfg.livekit_api_key ++ ":" ++ idt ++ ":" ++ room ++ ":"
          ++ toString (t + 3600)) ++ ":"
        ++ bytesToHex (hmacSha256 (strBytes cfg.livekit_api_secret)
            (strBytes (cfg.livekit_api_key ++ ":" ++ idt ++ ":" ++ room
              ++ ":" ++ toString (t + 3600)))) ∧
    (t1 ≠ t2 → tokenExpiry t1 ≠ tokenExpiry t2) ∧
    validate_token cfg.livekit_api_secret
      (create_access_token cfg room idt t) = true ∧
    tokenSignature demoSettings "r1" "u1" 0
      ≠ tokenSignature demoSettings "r1" "u1" 1 := by
  refine ⟨rfl, ?_, ?_, ?_⟩
  · intro h
    simp only [tokenExpiry]
    omega
  · exact validate_token_ok cfg.livekit_api_secret
      (tokenData cfg room idt t) (tokenSignature cfg room idt t) rfl
      (bytesToHex_no_colon _ (hmacSha256_lt _ _))
  · decide

theorem accessTokenCanonicalSigned_witness :
    tokenExpiry 5 ≠ tokenExpiry 9 ∧
    validate_token demoSettings.livekit_api_secret
      (create_access_token demoSettings "r1" "u1" 5) = true :=
  ⟨(accessTokenCanonicalSigned demoSettings "r1" "u1" 5 5 9).2.1 (by decide),
   (accessTokenCanonicalSigned demoSettings "r1" "u1" 5 5 9).2.2.1⟩

end Cloudy
